import Mathlib

/-!
Verification of modules/codec/dav1d.c, the dav1d (AV1) decoder adapter.

The adapter glues a host media framework to the external dav1d decoder
library.  We embed the adapter's own control flow faithfully from the C
source; the host framework's primitives and the external library are
modelled abstractly (the adapter only observes their return values), and
operations declared in repository headers that are not part of the source
tree (the timestamp FIFO helper, the VLC_CLIP and __MAX macros) are
modelled from the specification, as marked on each definition.

State changes that the C code performs through calls with side effects
(releasing a buffer, pushing a timestamp, invoking the external decoder,
queueing an output picture) are recorded as an explicit event trace, so
that ordering claims ("the timestamp is pushed before the first decode
call") become statements about the trace.
-/

namespace Dav1d

/-- Timestamps: vlc_tick_t is a 64-bit signed integer count of ticks. -/
abbrev VlcTick := Int

/-- Value of VLC_TICK_INVALID, the reserved invalid timestamp. -/
def VLC_TICK_INVALID : VlcTick := 0

/-- Return code VLC_SUCCESS from vlc_common.h. -/
def VLC_SUCCESS : Int := 0

/-- Return code VLC_EGENERIC from vlc_common.h. -/
def VLC_EGENERIC : Int := -1

/-- Return code VLC_ENOMEM from vlc_common.h. -/
def VLC_ENOMEM : Int := -2

/-- Decoder return code VLCDEC_SUCCESS (equal to VLC_SUCCESS). -/
def VLCDEC_SUCCESS : Int := VLC_SUCCESS

/-- Decoder return code VLCDEC_ECRITICAL (equal to VLC_EGENERIC). -/
def VLCDEC_ECRITICAL : Int := VLC_EGENERIC

/-- Errno value EAGAIN as used by dav1d to signal that more input is
needed (the concrete value never matters to the adapter, which only
compares against it). -/
def EAGAIN : Int := 11

/-- Block flag BLOCK_FLAG_CORRUPTED from vlc_block.h. -/
def BLOCK_FLAG_CORRUPTED : Nat := 0x0100

/-- Little-endian four-character code, as laid out by the VLC_FOURCC
macro. -/
def VLC_FOURCC (a b c d : Nat) : Nat :=
  a + 0x100 * b + 0x10000 * c + 0x1000000 * d

/-- Fourcc of the AV1 codec, VLC_CODEC_AV1. -/
def VLC_CODEC_AV1 : Nat := VLC_FOURCC 97 118 48 49

/-- Fourcc VLC_CODEC_GREY. -/
def VLC_CODEC_GREY : Nat := VLC_FOURCC 71 82 69 89

/-- Fourcc VLC_CODEC_I420. -/
def VLC_CODEC_I420 : Nat := VLC_FOURCC 73 52 50 48

/-- Fourcc VLC_CODEC_I422. -/
def VLC_CODEC_I422 : Nat := VLC_FOURCC 73 52 50 50

/-- Fourcc VLC_CODEC_I444. -/
def VLC_CODEC_I444 : Nat := VLC_FOURCC 73 52 52 52

/-- Fourcc VLC_CODEC_I420_10L. -/
def VLC_CODEC_I420_10L : Nat := VLC_FOURCC 73 48 65 76

/-- Fourcc VLC_CODEC_I422_10L. -/
def VLC_CODEC_I422_10L : Nat := VLC_FOURCC 73 50 65 76

/-- Fourcc VLC_CODEC_I444_10L. -/
def VLC_CODEC_I444_10L : Nat := VLC_FOURCC 73 52 65 76

/-- Enum Dav1dPixelLayout value DAV1D_PIXEL_LAYOUT_I400. -/
def DAV1D_PIXEL_LAYOUT_I400 : Nat := 0

/-- Enum Dav1dPixelLayout value DAV1D_PIXEL_LAYOUT_I420. -/
def DAV1D_PIXEL_LAYOUT_I420 : Nat := 1

/-- Enum Dav1dPixelLayout value DAV1D_PIXEL_LAYOUT_I422. -/
def DAV1D_PIXEL_LAYOUT_I422 : Nat := 2

/-- Enum Dav1dPixelLayout value DAV1D_PIXEL_LAYOUT_I444. -/
def DAV1D_PIXEL_LAYOUT_I444 : Nat := 3

/-- Enum value COLOR_PRIMARIES_UNDEF from vlc_es.h. -/
def COLOR_PRIMARIES_UNDEF : Nat := 0

/-- Modelled from the spec: the VLC_CLIP macro of vlc_common.h is not in
the source tree; the spec describes the derived tile-thread default as
the CPU count "clipped to [1,4]", that is, raised to the lower bound and
then lowered to the upper bound. -/
def VLC_CLIP (v lo hi : Int) : Int := min (max v lo) hi

/-- Modelled from the spec: the timestamp FIFO of vlc_timestamp_helper.h
is not in the source tree.  Per the spec it is "a bounded queue
(capacity 32 in this instance) recording input timestamps in input
order; each successful decode output pops the oldest unconsumed
timestamp", and pushing beyond the capacity loses a timestamp. -/
structure TsFifo where
  capacity : Nat
  buf : List VlcTick
  deriving Repr, DecidableEq

/-- Modelled from the spec: timestamp_FifoNew creates an empty FIFO of
the given capacity. -/
def timestamp_FifoNew (capacity : Nat) : TsFifo :=
  { capacity := capacity, buf := [] }

/-- Modelled from the spec: timestamp_FifoPut appends a timestamp at the
back; when the FIFO is already at capacity the oldest entry is lost. -/
def timestamp_FifoPut (f : TsFifo) (ts : VlcTick) : TsFifo :=
  if f.buf.length < f.capacity then
    { f with buf := f.buf ++ [ts] }
  else
    { f with buf := f.buf.tail ++ [ts] }

/-- Modelled from the spec: timestamp_FifoGet pops and returns the
oldest entry; on an empty FIFO it returns VLC_TICK_INVALID. -/
def timestamp_FifoGet (f : TsFifo) : VlcTick × TsFifo :=
  match f.buf with
  | [] => (VLC_TICK_INVALID, f)
  | ts :: rest => (ts, { f with buf := rest })

/-- Modelled from the spec: timestamp_FifoEmpty discards all entries. -/
def timestamp_FifoEmpty (f : TsFifo) : TsFifo :=
  { f with buf := [] }

/-- Compressed input unit (block_t): the fields of the block the adapter
reads.  The payload bytes themselves are irrelevant to the adapter, only
the buffer length takes part in its control flow. -/
structure Block where
  i_flags : Nat
  i_pts : VlcTick
  i_dts : VlcTick
  i_buffer : Nat
  deriving Repr, DecidableEq

/-- Output picture handed to the host: a clone of a decoder-filled
picture (identified by the id of the picture it was cloned from), with
the progressive flag and the date the adapter assigns. -/
structure Picture where
  clonedFrom : Nat
  b_progressive : Bool
  date : VlcTick
  deriving Repr, DecidableEq

/-- Observable side effects of the adapter, in program order. -/
inductive Event where
  /-- block_Release on the input block. -/
  | blockRelease : Event
  /-- timestamp_FifoPut of a timestamp. -/
  | fifoPut : VlcTick → Event
  /-- An invocation of dav1d_decode. -/
  | davDecodeCall : Event
  /-- timestamp_FifoGet returning a timestamp. -/
  | fifoGet : VlcTick → Event
  /-- decoder_QueueVideo of an output picture. -/
  | queueVideo : Picture → Event
  /-- picture_Release of the decoder-filled picture after a failed
  clone. -/
  | pictureRelease : Nat → Event
  /-- dav1d_picture_unref of the output picture wrapper. -/
  | davPictureUnref : Event
  /-- dav1d_flush on the decoder context. -/
  | davFlush : Event
  /-- timestamp_FifoEmpty on the timestamp FIFO. -/
  | fifoEmptyOp : Event
  /-- timestamp_FifoRelease on the timestamp FIFO. -/
  | fifoRelease : Event
  /-- dav1d_close on the decoder context. -/
  | davClose : Event
  deriving Repr, DecidableEq

/-- One response of the external dav1d decoder to a dav1d_decode call,
as observed by the adapter: the return value, the decoder-filled picture
(its allocator_data identity, meaningful when res is 0), whether the
host-side picture_Clone of it succeeds, and how much of the wrapped
input data remains unconsumed after the call. -/
structure DavResp where
  res : Int
  picId : Nat
  cloneOk : Bool
  remSz : Nat
  deriving Repr, DecidableEq

/-- The do/while loop of Decode.  The external decoder's behaviour is an
oracle: a finite list of responses, one per dav1d_decode call; if the C
loop would call the decoder again after the oracle is exhausted, the
model stops there (every claim proved about the loop is a property of
each step taken, so truncation is sound).  Mirrors dav1d.c lines
217-243: on res equal to 0 clone the picture (on clone failure set i_ret
to VLC_EGENERIC, release the original and break), mark it progressive,
date it from the FIFO, queue it and unref the wrapper; on any res other
than negated EAGAIN set i_ret to VLC_EGENERIC and break; loop while res
is 0 or wrapped data remains. -/
def decodeLoop (oracle : List DavResp) (hasData : Bool) (sz : Nat)
    (fifo : TsFifo) (i_ret : Int) (tr : List Event) :
    Int × TsFifo × List Event :=
  match oracle with
  | [] => (i_ret, fifo, tr)
  | r :: rest =>
    let tr := tr ++ [Event.davDecodeCall]
    let sz := r.remSz
    if r.res = 0 then
      if r.cloneOk then
        let ts := (timestamp_FifoGet fifo).1
        let fifo := (timestamp_FifoGet fifo).2
        let pic : Picture :=
          { clonedFrom := r.picId, b_progressive := true, date := ts }
        let tr := tr ++ [Event.fifoGet ts, Event.queueVideo pic,
                         Event.davPictureUnref]
        decodeLoop rest hasData sz fifo i_ret tr
      else
        (VLC_EGENERIC, fifo, tr ++ [Event.pictureRelease r.picId])
    else if r.res ≠ -EAGAIN then
      (VLC_EGENERIC, fifo, tr)
    else if hasData ∧ sz ≠ 0 then
      decodeLoop rest hasData sz fifo i_ret tr
    else
      (i_ret, fifo, tr)

/-- Decode (dav1d.c lines 188-247).  Inputs: the optional block (null
means the end-of-stream drain), whether dav1d_data_wrap succeeds
(external), the oracle for the decode loop, and the current timestamp
FIFO.  Returns the VLCDEC return value, the final FIFO and the event
trace.  Mirrors the source: a corrupted block is released and the call
succeeds; a wrap failure releases the block and is critical; otherwise
the block's timestamp (presentation if valid, else decode) is pushed
into the FIFO and the loop runs. -/
def Decode (block : Option Block) (wrapOk : Bool) (oracle : List DavResp)
    (fifo : TsFifo) : Int × TsFifo × List Event :=
  match block with
  | some b =>
    if Nat.land b.i_flags BLOCK_FLAG_CORRUPTED ≠ 0 then
      (VLCDEC_SUCCESS, fifo, [Event.blockRelease])
    else if ¬ wrapOk then
      (VLCDEC_ECRITICAL, fifo, [Event.blockRelease])
    else
      let pts := if b.i_pts = VLC_TICK_INVALID then b.i_dts else b.i_pts
      let fifo := timestamp_FifoPut fifo pts
      decodeLoop oracle true b.i_buffer fifo VLCDEC_SUCCESS
        [Event.fifoPut pts]
  | none =>
      let pts := VLC_TICK_INVALID
      let fifo := timestamp_FifoPut fifo pts
      decodeLoop oracle false 0 fifo VLCDEC_SUCCESS [Event.fifoPut pts]

/-- Parameters of the frame the external decoder requests a buffer for
(Dav1dPicture.p, Dav1dPictureParameters): dimensions, pixel layout, bit
depth and the bitstream's color metadata. -/
structure DavPicParams where
  w : Nat
  h : Nat
  layout : Nat
  bpc : Nat
  pri : Nat
  trc : Nat
  mtrx : Nat
  fullrange : Bool
  deriving Repr, DecidableEq

/-- The fields of video_format_t that NewPicture reads or writes.  The
projection/multiview/pose fields are opaque to the adapter and carried
as plain numbers. -/
structure VideoFormat where
  i_visible_width : Nat
  i_visible_height : Nat
  i_width : Nat
  i_height : Nat
  i_sar_num : Nat
  i_sar_den : Nat
  primaries : Nat
  transfer : Nat
  space : Nat
  b_color_range_full : Bool
  projection_mode : Nat
  multiview_mode : Nat
  pose : Nat
  i_chroma : Nat
  deriving Repr, DecidableEq

/-- Entry of the chroma_table: host fourcc, dav1d pixel layout, bit
depth. -/
structure ChromaEntry where
  i_chroma : Nat
  i_chroma_id : Nat
  i_bitdepth : Nat
  deriving Repr, DecidableEq

/-- The chroma_table of dav1d.c lines 82-97. -/
def chroma_table : List ChromaEntry :=
  [ ⟨VLC_CODEC_GREY, DAV1D_PIXEL_LAYOUT_I400, 8⟩,
    ⟨VLC_CODEC_I420, DAV1D_PIXEL_LAYOUT_I420, 8⟩,
    ⟨VLC_CODEC_I422, DAV1D_PIXEL_LAYOUT_I422, 8⟩,
    ⟨VLC_CODEC_I444, DAV1D_PIXEL_LAYOUT_I444, 8⟩,
    ⟨VLC_CODEC_I420_10L, DAV1D_PIXEL_LAYOUT_I420, 10⟩,
    ⟨VLC_CODEC_I422_10L, DAV1D_PIXEL_LAYOUT_I422, 10⟩,
    ⟨VLC_CODEC_I444_10L, DAV1D_PIXEL_LAYOUT_I444, 10⟩ ]

/-- FindVlcChroma (dav1d.c lines 99-107): first chroma_table entry
matching the picture's layout and bit depth, or 0 when none matches. -/
def FindVlcChroma (img : DavPicParams) : Nat :=
  match chroma_table.find? fun e =>
      e.i_chroma_id = img.layout ∧ e.i_bitdepth = img.bpc with
  | some e => e.i_chroma
  | none => 0

/-- Result of the NewPicture allocation callback: the updated output
video format, the updated output codec (fmt_out.i_codec), and the C
return value (0 on success, -1 on failure). -/
structure NewPictureResult where
  v : VideoFormat
  i_codec : Nat
  ret : Int
  deriving Repr, DecidableEq

/-- NewPicture (dav1d.c lines 109-156), the picture allocation callback
invoked by the external decoder.  The three iso_23001_8 conversion
tables live in a packetizer header outside the source tree, so they are
taken as parameters cp, tc and mc; decoder_UpdateVideoFormat and
decoder_NewPicture are host services whose success is the updateOk and
newPicOk parameters.  The callback writes the visible dimensions, the
dimensions rounded up to the 128 boundary (the C expression
(x + 0x7F) masked by the complement of 0x7F equals, for non-negative x,
x + 0x7F minus its remainder modulo 0x80), the default 1:1 aspect ratio
when unset, the color metadata when the input format's primaries are
undefined, the passed-through projection fields, and the chroma from
the table lookup. -/
def NewPicture (cp tc mc : Nat → Nat) (fmt_in : VideoFormat)
    (img : DavPicParams) (v0 : VideoFormat) (updateOk newPicOk : Bool) :
    NewPictureResult :=
  let v := { v0 with
    i_visible_width := img.w
    i_visible_height := img.h
    i_width := (img.w + 0x7F) - (img.w + 0x7F) % 0x80
    i_height := (img.h + 0x7F) - (img.h + 0x7F) % 0x80 }
  let v := if v.i_sar_num = 0 ∨ v.i_sar_den = 0 then
      { v with i_sar_num := 1, i_sar_den := 1 }
    else v
  let v := if fmt_in.primaries = COLOR_PRIMARIES_UNDEF then
      { v with
        primaries := cp img.pri
        transfer := tc img.trc
        space := mc img.mtrx
        b_color_range_full := img.fullrange }
    else v
  let v := { v with
    projection_mode := fmt_in.projection_mode
    multiview_mode := fmt_in.multiview_mode
    pose := fmt_in.pose
    i_chroma := FindVlcChroma img }
  if updateOk then
    if newPicOk then
      { v := v, i_codec := FindVlcChroma img, ret := 0 }
    else
      { v := v, i_codec := FindVlcChroma img, ret := -1 }
  else
    { v := v, i_codec := FindVlcChroma img, ret := -1 }

/-- Outcome of OpenDecoder as far as resource construction and release
is concerned, together with the computed settings.  The fifoReleased
field records whether timestamp_FifoRelease was invoked on the created
FIFO on the taken path before returning. -/
structure OpenResult where
  ret : Int
  sysAllocated : Bool
  fifoCreated : Bool
  fifoReleased : Bool
  davOpened : Bool
  n_tile_threads : Int
  n_frame_threads : Int
  i_extra_picture_buffers : Int
  deriving Repr, DecidableEq

/-- OpenDecoder (dav1d.c lines 252-302).  Inputs: the input codec
fourcc, whether the session allocation, the FIFO creation and the
dav1d_open call succeed (all external), the two inherited configuration
integers and the CPU count.  Mirrors the source: reject a non-AV1
codec; allocate the session; derive thread counts (configuration value,
or the CPU-derived default when it is 0); create the FIFO; open the
external decoder; on success record the extra picture buffering.  On
the dav1d_open failure path the source returns without releasing the
FIFO it created, hence fifoReleased is false on every path of this
function. -/
def OpenDecoder (codec : Nat) (mallocOk fifoNewOk davOpenOk : Bool)
    (cfgTiles cfgFrames cpuCount : Int) : OpenResult :=
  if codec ≠ VLC_CODEC_AV1 then
    ⟨VLC_EGENERIC, false, false, false, false, 0, 0, 0⟩
  else if ¬ mallocOk then
    ⟨VLC_ENOMEM, false, false, false, false, 0, 0, 0⟩
  else
    let tiles := if cfgTiles = 0 then VLC_CLIP cpuCount 1 4 else cfgTiles
    let frames := if cfgFrames = 0 then max 1 cpuCount else cfgFrames
    if ¬ fifoNewOk then
      ⟨VLC_EGENERIC, true, false, false, false, tiles, frames, 0⟩
    else if ¬ davOpenOk then
      ⟨VLC_EGENERIC, true, true, false, false, tiles, frames, 0⟩
    else
      ⟨VLC_SUCCESS, true, true, false, true, tiles, frames, frames - 1⟩

/-- Abstract state of the external decoder context: the identities of
the frames it holds buffered internally.  The adapter never inspects
this state; dav1d_flush is documented (and specified) to discard it. -/
structure DavCtx where
  buffered : List Nat
  deriving Repr, DecidableEq

/-- The external dav1d_flush call: discards every internally buffered
frame. -/
def dav1d_flush (c : DavCtx) : DavCtx :=
  { c with buffered := [] }

/-- Session state reachable from the flush and close paths. -/
structure DecoderSys where
  c : DavCtx
  ts_fifo : TsFifo
  deriving Repr, DecidableEq

/-- FlushDecoder (dav1d.c lines 171-176): flush the external decoder,
then empty the timestamp FIFO.  Returns the new session state and the
event trace of the call. -/
def FlushDecoder (s : DecoderSys) : DecoderSys × List Event :=
  let c := dav1d_flush s.c
  let fifo := timestamp_FifoEmpty s.ts_fifo
  ({ c := c, ts_fifo := fifo }, [Event.davFlush, Event.fifoEmptyOp])

/-- CloseDecoder (dav1d.c lines 307-318): flush, release the FIFO,
close the external decoder.  Only the event trace matters to the
claims; it is returned together with the flushed state. -/
def CloseDecoder (s : DecoderSys) : DecoderSys × List Event :=
  let (s, tr) := FlushDecoder s
  (s, tr ++ [Event.fifoRelease, Event.davClose])

/-- Pictures queued to the host in a trace, in order. -/
def queuedPics (tr : List Event) : List Picture :=
  tr.filterMap fun e =>
    match e with
    | Event.queueVideo p => some p
    | _ => none

/-- Timestamps popped from the FIFO in a trace, in order. -/
def poppedTs (tr : List Event) : List VlcTick :=
  tr.filterMap fun e =>
    match e with
    | Event.fifoGet ts => some ts
    | _ => none

/-- Timestamps pushed into the FIFO in a trace, in order. -/
def pushedTs (tr : List Event) : List VlcTick :=
  tr.filterMap fun e =>
    match e with
    | Event.fifoPut ts => some ts
    | _ => none

theorem queuedPics_append (a b : List Event) :
    queuedPics (a ++ b) = queuedPics a ++ queuedPics b := by
  simp [queuedPics, List.filterMap_append]

theorem poppedTs_append (a b : List Event) :
    poppedTs (a ++ b) = poppedTs a ++ poppedTs b := by
  simp [poppedTs, List.filterMap_append]

theorem pushedTs_append (a b : List Event) :
    pushedTs (a ++ b) = pushedTs a ++ pushedTs b := by
  simp [pushedTs, List.filterMap_append]

/-- Invariant of the decode loop: the loop only appends to the trace it
is given; the appended part pushes no timestamp into the FIFO; the dates
of the pictures it queues are exactly the timestamps it pops from the
FIFO, in order; and every queued picture is progressive and is a clone
of a picture the oracle returned with a zero result and a successful
clone. -/
theorem decodeLoop_trace (oracle : List DavResp) (hasData : Bool)
    (sz : Nat) (fifo : TsFifo) (i_ret : Int) (tr : List Event) :
    ∃ d,
      (decodeLoop oracle hasData sz fifo i_ret tr).2.2 = tr ++ d ∧
      pushedTs d = [] ∧
      (queuedPics d).map Picture.date = poppedTs d ∧
      ∀ p ∈ queuedPics d, p.b_progressive = true ∧
        ∃ r, r ∈ oracle ∧ r.res = 0 ∧ r.cloneOk = true ∧
          r.picId = p.clonedFrom := by
  induction oracle generalizing hasData sz fifo i_ret tr with
  | nil =>
    refine ⟨[], by simp [decodeLoop], rfl, rfl, ?_⟩
    intro p hp
    simp [queuedPics] at hp
  | cons r rest ih =>
    simp only [decodeLoop]
    split_ifs with h0 hc hna hcont
    · -- res = 0, clone succeeded: one output picture, then recurse
      obtain ⟨d, hd, hpush, hdates, hq⟩ :=
        ih hasData r.remSz (timestamp_FifoGet fifo).2 i_ret
          ((tr ++ [Event.davDecodeCall]) ++
            [Event.fifoGet (timestamp_FifoGet fifo).1,
             Event.queueVideo
               ⟨r.picId, true, (timestamp_FifoGet fifo).1⟩,
             Event.davPictureUnref])
      refine ⟨[Event.davDecodeCall,
               Event.fifoGet (timestamp_FifoGet fifo).1,
               Event.queueVideo
                 ⟨r.picId, true, (timestamp_FifoGet fifo).1⟩,
               Event.davPictureUnref] ++ d, ?_, ?_, ?_, ?_⟩
      · rw [hd]; simp
      · rw [pushedTs_append, hpush]; rfl
      · rw [queuedPics_append, poppedTs_append, List.map_append, hdates]
        rfl
      · intro p hp
        rw [queuedPics_append, List.mem_append] at hp
        rcases hp with hp | hp
        · simp only [queuedPics, List.filterMap] at hp
          simp only [List.mem_singleton] at hp
          subst hp
          exact ⟨rfl, r, List.mem_cons_self r rest, h0, hc, rfl⟩
        · obtain ⟨hprog, r', hr', hres, hclone, hid⟩ := hq p hp
          exact ⟨hprog, r', List.mem_cons_of_mem r hr', hres, hclone, hid⟩
    · -- res = 0, clone failed: abort the call
      refine ⟨[Event.davDecodeCall, Event.pictureRelease r.picId],
        by simp, rfl, rfl, ?_⟩
      intro p hp
      simp [queuedPics] at hp
    · -- hard decoder error: abort the call
      refine ⟨[Event.davDecodeCall], by simp, rfl, rfl, ?_⟩
      intro p hp
      simp [queuedPics] at hp
    · -- needs more input and data remains: recurse
      obtain ⟨d, hd, hpush, hdates, hq⟩ :=
        ih hasData r.remSz fifo i_ret (tr ++ [Event.davDecodeCall])
      refine ⟨[Event.davDecodeCall] ++ d, ?_, ?_, ?_, ?_⟩
      · rw [hd]; simp
      · rw [pushedTs_append, hpush]; rfl
      · rw [queuedPics_append, poppedTs_append, List.map_append, hdates]
        rfl
      · intro p hp
        rw [queuedPics_append, List.mem_append] at hp
        rcases hp with hp | hp
        · simp [queuedPics] at hp
        · obtain ⟨hprog, r', hr', hres, hclone, hid⟩ := hq p hp
          exact ⟨hprog, r', List.mem_cons_of_mem r hr', hres, hclone, hid⟩
    · -- needs more input, nothing left to feed: exit the loop
      refine ⟨[Event.davDecodeCall], by simp, rfl, rfl, ?_⟩
      intro p hp
      simp [queuedPics] at hp

/-- Claim C4: for every input unit whose corruption flag is set, Decode
releases the unit, returns success, pushes no timestamp into the FIFO
and never invokes the external decoder (so processing can continue on
subsequent calls). -/
theorem decode_corrupted_dropped (b : Block) (wrapOk : Bool)
    (oracle : List DavResp) (fifo : TsFifo)
    (hcorr : Nat.land b.i_flags BLOCK_FLAG_CORRUPTED ≠ 0) :
    (Decode (some b) wrapOk oracle fifo).1 = VLCDEC_SUCCESS ∧
    (Decode (some b) wrapOk oracle fifo).2.1 = fifo ∧
    (Decode (some b) wrapOk oracle fifo).2.2 = [Event.blockRelease] ∧
    Event.davDecodeCall ∉ (Decode (some b) wrapOk oracle fifo).2.2 ∧
    pushedTs (Decode (some b) wrapOk oracle fifo).2.2 = [] := by
  simp [Decode, hcorr, pushedTs]

/-- Witness for C4 at a concrete corrupted block. -/
theorem decode_corrupted_dropped_witness :
    Nat.land (0x0100 : Nat) BLOCK_FLAG_CORRUPTED ≠ 0 ∧
    ((Decode (some ⟨0x0100, 1, 2, 3⟩) true [] (timestamp_FifoNew 32)).1 =
        VLCDEC_SUCCESS ∧
      (Decode (some ⟨0x0100, 1, 2, 3⟩) true [] (timestamp_FifoNew 32)).2.1 =
        timestamp_FifoNew 32 ∧
      (Decode (some ⟨0x0100, 1, 2, 3⟩) true [] (timestamp_FifoNew 32)).2.2 =
        [Event.blockRelease] ∧
      Event.davDecodeCall ∉
        (Decode (some ⟨0x0100, 1, 2, 3⟩) true [] (timestamp_FifoNew 32)).2.2 ∧
      pushedTs
        (Decode (some ⟨0x0100, 1, 2, 3⟩) true [] (timestamp_FifoNew 32)).2.2 =
        []) :=
  ⟨by decide,
   decode_corrupted_dropped ⟨0x0100, 1, 2, 3⟩ true [] (timestamp_FifoNew 32)
     (by decide)⟩

/-- Claim C10: if zero-copy wrapping of a valid (non-corrupted) input
buffer fails, Decode releases the block, returns VLCDEC_ECRITICAL,
pushes no timestamp and never invokes the external decoder. -/
theorem decode_wrap_failure_critical (b : Block) (oracle : List DavResp)
    (fifo : TsFifo)
    (hvalid : Nat.land b.i_flags BLOCK_FLAG_CORRUPTED = 0) :
    (Decode (some b) false oracle fifo).1 = VLCDEC_ECRITICAL ∧
    (Decode (some b) false oracle fifo).2.1 = fifo ∧
    (Decode (some b) false oracle fifo).2.2 = [Event.blockRelease] ∧
    Event.davDecodeCall ∉ (Decode (some b) false oracle fifo).2.2 ∧
    pushedTs (Decode (some b) false oracle fifo).2.2 = [] := by
  simp [Decode, hvalid, pushedTs]

/-- Witness for C10 at a concrete valid block. -/
theorem decode_wrap_failure_critical_witness :
    Nat.land (0 : Nat) BLOCK_FLAG_CORRUPTED = 0 ∧
    ((Decode (some ⟨0, 9, 8, 4⟩) false [] (timestamp_FifoNew 32)).1 =
        VLCDEC_ECRITICAL ∧
      (Decode (some ⟨0, 9, 8, 4⟩) false [] (timestamp_FifoNew 32)).2.1 =
        timestamp_FifoNew 32 ∧
      (Decode (some ⟨0, 9, 8, 4⟩) false [] (timestamp_FifoNew 32)).2.2 =
        [Event.blockRelease] ∧
      Event.davDecodeCall ∉
        (Decode (some ⟨0, 9, 8, 4⟩) false [] (timestamp_FifoNew 32)).2.2 ∧
      pushedTs
        (Decode (some ⟨0, 9, 8, 4⟩) false [] (timestamp_FifoNew 32)).2.2 =
        []) :=
  ⟨by decide,
   decode_wrap_failure_critical ⟨0, 9, 8, 4⟩ [] (timestamp_FifoNew 32)
     (by decide)⟩

/-- Claim C9: a Decode call with a null block (the end-of-stream drain)
still pushes VLC_TICK_INVALID into the FIFO, as its very first action
and hence before any dav1d_decode poll, and that is the only timestamp
the call pushes, so each drain call consumes one FIFO slot. -/
theorem decode_drain_pushes_invalid (wrapOk : Bool)
    (oracle : List DavResp) (fifo : TsFifo) :
    (Decode none wrapOk oracle fifo).2.2.head? =
      some (Event.fifoPut VLC_TICK_INVALID) ∧
    pushedTs (Decode none wrapOk oracle fifo).2.2 =
      [VLC_TICK_INVALID] := by
  obtain ⟨d, hd, hpush, _, _⟩ := decodeLoop_trace oracle false 0
    (timestamp_FifoPut fifo VLC_TICK_INVALID) VLCDEC_SUCCESS
    [Event.fifoPut VLC_TICK_INVALID]
  have hD : Decode none wrapOk oracle fifo =
      decodeLoop oracle false 0 (timestamp_FifoPut fifo VLC_TICK_INVALID)
        VLCDEC_SUCCESS [Event.fifoPut VLC_TICK_INVALID] := by
    simp [Decode]
  rw [hD, hd]
  refine ⟨by simp, ?_⟩
  rw [pushedTs_append, hpush]
  rfl

/-- Claim C8: after FlushDecoder the timestamp FIFO is empty, the
external decoder's internal frame buffering has been discarded, and no
picture was queued to the host during the flush. -/
theorem flushDecoder_empties_state (s : DecoderSys) :
    (FlushDecoder s).1.ts_fifo.buf = [] ∧
    (FlushDecoder s).1.c.buffered = [] ∧
    queuedPics (FlushDecoder s).2 = [] := by
  simp [FlushDecoder, dav1d_flush, timestamp_FifoEmpty]
  rfl

/-- Claim C1 (code bug): when dav1d_open fails after the timestamp FIFO
was created, OpenDecoder does return the failure code VLC_EGENERIC, but
it returns without releasing the FIFO it created: the source has no
timestamp_FifoRelease on that path, contradicting the specified release
of every partially constructed resource. -/
theorem openDecoder_open_failure_leaves_fifo_unreleased :
    (OpenDecoder VLC_CODEC_AV1 true true false 0 0 8).ret =
      VLC_EGENERIC ∧
    (OpenDecoder VLC_CODEC_AV1 true true false 0 0 8).fifoCreated =
      true ∧
    (OpenDecoder VLC_CODEC_AV1 true true false 0 0 8).fifoReleased =
      false := by
  decide

/-- Claim C7: the tile-thread count is the configuration value, or when
that value is 0 the CPU count clipped to the range [1,4]; the
frame-thread count is the configuration value, or when that value is 0
the maximum of 1 and the CPU count. -/
theorem openDecoder_thread_counts (fifoNewOk davOpenOk : Bool)
    (cfgTiles cfgFrames cpuCount : Int) :
    (OpenDecoder VLC_CODEC_AV1 true fifoNewOk davOpenOk cfgTiles
        cfgFrames cpuCount).n_tile_threads =
      (if cfgTiles = 0 then min (max cpuCount 1) 4 else cfgTiles) ∧
    (OpenDecoder VLC_CODEC_AV1 true fifoNewOk davOpenOk cfgTiles
        cfgFrames cpuCount).n_frame_threads =
      (if cfgFrames = 0 then max 1 cpuCount else cfgFrames) := by
  cases fifoNewOk <;> cases davOpenOk <;> simp [OpenDecoder, VLC_CLIP]

/-- Claim C3: for a non-corrupted, non-null input unit whose wrapping
succeeds, the unit's timestamp (its presentation timestamp when valid,
otherwise its decode timestamp) is pushed into the FIFO as the very
first action of the call — in particular before the first dav1d_decode
call — and it is the only timestamp the call pushes. -/
theorem decode_pushes_timestamp_before_decoding (b : Block)
    (oracle : List DavResp) (fifo : TsFifo)
    (hvalid : Nat.land b.i_flags BLOCK_FLAG_CORRUPTED = 0) :
    (Decode (some b) true oracle fifo).2.2.head? =
      some (Event.fifoPut
        (if b.i_pts = VLC_TICK_INVALID then b.i_dts else b.i_pts)) ∧
    pushedTs (Decode (some b) true oracle fifo).2.2 =
      [if b.i_pts = VLC_TICK_INVALID then b.i_dts else b.i_pts] := by
  obtain ⟨d, hd, hpush, _, _⟩ := decodeLoop_trace oracle true b.i_buffer
    (timestamp_FifoPut fifo
      (if b.i_pts = VLC_TICK_INVALID then b.i_dts else b.i_pts))
    VLCDEC_SUCCESS
    [Event.fifoPut
      (if b.i_pts = VLC_TICK_INVALID then b.i_dts else b.i_pts)]
  have hD : Decode (some b) true oracle fifo =
      decodeLoop oracle true b.i_buffer
        (timestamp_FifoPut fifo
          (if b.i_pts = VLC_TICK_INVALID then b.i_dts else b.i_pts))
        VLCDEC_SUCCESS
        [Event.fifoPut
          (if b.i_pts = VLC_TICK_INVALID then b.i_dts else b.i_pts)] := by
    simp [Decode, hvalid]
  rw [hD, hd]
  refine ⟨by simp, ?_⟩
  rw [pushedTs_append, hpush]
  rfl

/-- Witness for C3 at a concrete block with a valid presentation
timestamp. -/
theorem decode_pushes_timestamp_before_decoding_witness :
    Nat.land (0 : Nat) BLOCK_FLAG_CORRUPTED = 0 ∧
    ((Decode (some ⟨0, 42, 7, 5⟩) true [] (timestamp_FifoNew 32)).2.2.head? =
        some (Event.fifoPut
          (if (42 : Int) = VLC_TICK_INVALID then 7 else 42)) ∧
      pushedTs
        (Decode (some ⟨0, 42, 7, 5⟩) true [] (timestamp_FifoNew 32)).2.2 =
        [if (42 : Int) = VLC_TICK_INVALID then 7 else 42]) :=
  ⟨by decide,
   decode_pushes_timestamp_before_decoding ⟨0, 42, 7, 5⟩ []
     (timestamp_FifoNew 32) (by decide)⟩

/-- Claim C5: during any Decode call, the dates of the pictures queued
to the host are exactly the timestamps popped from the FIFO, in order
(timestamp_FifoGet pops the oldest entry), and every queued picture is
marked progressive and is a clone of a picture the external decoder
yielded with a successful (zero) result. -/
theorem decode_outputs_cloned_progressive_dated (block : Option Block)
    (wrapOk : Bool) (oracle : List DavResp) (fifo : TsFifo) :
    (queuedPics (Decode block wrapOk oracle fifo).2.2).map Picture.date =
      poppedTs (Decode block wrapOk oracle fifo).2.2 ∧
    ∀ p ∈ queuedPics (Decode block wrapOk oracle fifo).2.2,
      p.b_progressive = true ∧
      ∃ r, r ∈ oracle ∧ r.res = 0 ∧ r.cloneOk = true ∧
        r.picId = p.clonedFrom := by
  cases block with
  | none =>
    obtain ⟨d, hd, _, hdates, hq⟩ := decodeLoop_trace oracle false 0
      (timestamp_FifoPut fifo VLC_TICK_INVALID) VLCDEC_SUCCESS
      [Event.fifoPut VLC_TICK_INVALID]
    have hD : Decode none wrapOk oracle fifo =
        decodeLoop oracle false 0
          (timestamp_FifoPut fifo VLC_TICK_INVALID) VLCDEC_SUCCESS
          [Event.fifoPut VLC_TICK_INVALID] := by
      simp [Decode]
    rw [hD, hd, queuedPics_append, poppedTs_append]
    have h1 : queuedPics [Event.fifoPut VLC_TICK_INVALID] = [] := rfl
    have h2 : poppedTs [Event.fifoPut VLC_TICK_INVALID] = [] := rfl
    rw [h1, h2]
    simpa using ⟨hdates, hq⟩
  | some b =>
    by_cases hcorr : Nat.land b.i_flags BLOCK_FLAG_CORRUPTED ≠ 0
    · have hD : (Decode (some b) wrapOk oracle fifo).2.2 =
          [Event.blockRelease] := by
        simp [Decode, hcorr]
      rw [hD]
      exact ⟨rfl, by intro p hp; simp [queuedPics] at hp⟩
    · cases wrapOk with
      | false =>
        have hD : (Decode (some b) false oracle fifo).2.2 =
            [Event.blockRelease] := by
          simp [Decode, hcorr]
        rw [hD]
        exact ⟨rfl, by intro p hp; simp [queuedPics] at hp⟩
      | true =>
        obtain ⟨d, hd, _, hdates, hq⟩ := decodeLoop_trace oracle true
          b.i_buffer
          (timestamp_FifoPut fifo
            (if b.i_pts = VLC_TICK_INVALID then b.i_dts else b.i_pts))
          VLCDEC_SUCCESS
          [Event.fifoPut
            (if b.i_pts = VLC_TICK_INVALID then b.i_dts else b.i_pts)]
        have hD : Decode (some b) true oracle fifo =
            decodeLoop oracle true b.i_buffer
              (timestamp_FifoPut fifo
                (if b.i_pts = VLC_TICK_INVALID then b.i_dts
                 else b.i_pts))
              VLCDEC_SUCCESS
              [Event.fifoPut
                (if b.i_pts = VLC_TICK_INVALID then b.i_dts
                 else b.i_pts)] := by
          simp only [ne_eq, not_not] at hcorr
          simp [Decode, hcorr]
        rw [hD, hd, queuedPics_append, poppedTs_append]
        have h1 : ∀ ts, queuedPics [Event.fifoPut ts] = [] :=
          fun ts => rfl
        have h2 : ∀ ts, poppedTs [Event.fifoPut ts] = [] :=
          fun ts => rfl
        rw [h1, h2]
        simpa using ⟨hdates, hq⟩

/-- Claim C6: NewPicture sets the output format's visible width and
height to the requested frame dimensions and the allocated width and
height to the smallest multiple of 128 greater than or equal to the
requested width and height respectively. -/
theorem newPicture_dimensions (cp tc mc : Nat → Nat)
    (fmt_in : VideoFormat) (img : DavPicParams) (v0 : VideoFormat)
    (updateOk newPicOk : Bool) :
    (NewPicture cp tc mc fmt_in img v0 updateOk
        newPicOk).v.i_visible_width = img.w ∧
    (NewPicture cp tc mc fmt_in img v0 updateOk
        newPicOk).v.i_visible_height = img.h ∧
    (NewPicture cp tc mc fmt_in img v0 updateOk
        newPicOk).v.i_width % 128 = 0 ∧
    img.w ≤ (NewPicture cp tc mc fmt_in img v0 updateOk
        newPicOk).v.i_width ∧
    (NewPicture cp tc mc fmt_in img v0 updateOk
        newPicOk).v.i_width < img.w + 128 ∧
    (NewPicture cp tc mc fmt_in img v0 updateOk
        newPicOk).v.i_height % 128 = 0 ∧
    img.h ≤ (NewPicture cp tc mc fmt_in img v0 updateOk
        newPicOk).v.i_height ∧
    (NewPicture cp tc mc fmt_in img v0 updateOk
        newPicOk).v.i_height < img.h + 128 := by
  simp only [NewPicture]
  split_ifs <;> simp <;> omega

/-- Claim C2, amended: the four color metadata fields are overwritten
from the external decoder's picture metadata all together, exactly when
the input format's primaries field is undefined; when the input
primaries are defined, all four fields keep their previous output
values, regardless of whether the other three input fields are set. -/
theorem newPicture_color_propagation (cp tc mc : Nat → Nat)
    (fmt_in : VideoFormat) (img : DavPicParams) (v0 : VideoFormat)
    (updateOk newPicOk : Bool) :
    (NewPicture cp tc mc fmt_in img v0 updateOk newPicOk).v.primaries =
      (if fmt_in.primaries = COLOR_PRIMARIES_UNDEF then cp img.pri
       else v0.primaries) ∧
    (NewPicture cp tc mc fmt_in img v0 updateOk newPicOk).v.transfer =
      (if fmt_in.primaries = COLOR_PRIMARIES_UNDEF then tc img.trc
       else v0.transfer) ∧
    (NewPicture cp tc mc fmt_in img v0 updateOk newPicOk).v.space =
      (if fmt_in.primaries = COLOR_PRIMARIES_UNDEF then mc img.mtrx
       else v0.space) ∧
    (NewPicture cp tc mc fmt_in img v0 updateOk
        newPicOk).v.b_color_range_full =
      (if fmt_in.primaries = COLOR_PRIMARIES_UNDEF then img.fullrange
       else v0.b_color_range_full) := by
  simp only [NewPicture]
  split_ifs <;> simp

/-- Counterexample to C2 as stated: an input format whose primaries are
defined (value 1) but whose transfer function is undefined (value 0).
Per the claim the transfer field is not overridden by the input format,
so it must be overwritten with the converted decoder value (here 5, the
conversions being instantiated with the identity); the code instead
leaves the previous output value 7, because it keys all four fields on
the primaries field alone. -/
theorem newPicture_per_field_propagation_fails :
    ¬ ((NewPicture id id id
        { i_visible_width := 0, i_visible_height := 0, i_width := 0,
          i_height := 0, i_sar_num := 1, i_sar_den := 1, primaries := 1,
          transfer := 0, space := 0, b_color_range_full := false,
          projection_mode := 0, multiview_mode := 0, pose := 0,
          i_chroma := 0 }
        { w := 64, h := 64, layout := 1, bpc := 8, pri := 1, trc := 5,
          mtrx := 1, fullrange := true }
        { i_visible_width := 0, i_visible_height := 0, i_width := 0,
          i_height := 0, i_sar_num := 1, i_sar_den := 1, primaries := 2,
          transfer := 7, space := 2, b_color_range_full := false,
          projection_mode := 0, multiview_mode := 0, pose := 0,
          i_chroma := 0 }
        true true).v.transfer = 5) := by
  decide

end Dav1d
